import Mathlib

/-!
Verification of the data-quality analysis engine of this repository
(`src/metrics/completeness.py`, `src/metrics/description_quality.py`,
`src/metrics/code_analysis.py`, `src/metrics/classifier_readiness.py`,
`src/analyzer.py`, `src/config.py`) against its natural-language
specification.

Modelling conventions of the shallow embedding:
* A dataset cell is `Option String`: `none` stands for a pandas null
  (`NaN`/`None`); for the analyzers in scope all values are treated as
  strings, which is how every analyzer consumes them.
* Python/numpy floating point arithmetic is modelled over `ℚ` (and over
  `ℝ` where a logarithm occurs).  `round(x, d)` is modelled as exact
  rational rounding to `d` decimal places, rounding halves up; no claim in
  scope depends on float rounding error or on banker's tie behaviour.
* numpy produces `NaN` (with a warning, not an exception) for 0/0 of
  integer scalars and for the mean of an empty sequence.  The only places
  a claim can observe such a value are noted on the definitions; in `ℚ`
  Lean's convention `x / 0 = 0` is used there and the affected values are
  never inspected by any theorem below outside their defined domain.
* Python exceptions that the analyzed code can actually raise are modelled
  with `Except PyError`: `int(nan)` raises `ValueError` and a missing dict
  key raises `KeyError`.  No other statement of the analyzed code can
  raise on the inputs in scope.
-/

/-- Errors the analyzed Python code can raise: `ValueError` from `int(nan)`
(`int(lengths.min())` on an empty series) and `KeyError` from a failed dict
lookup (`WEIGHTS[k]`). -/
inductive PyError where
  | valueErrorNanToInt : PyError
  | keyError : String → PyError
deriving DecidableEq

/-- Python `round(x, d)` over exact rationals: round to `d` decimal places.
Mathlib's `round` rounds halves up where Python rounds halves to even; no
value appearing in the claims sits on a tie. -/
def pyRound (d : ℕ) (q : ℚ) : ℚ := (round (q * 10 ^ d) : ℤ) / 10 ^ d

/-- Python `round(x, d)` over the reals (used where an entropy, hence a
logarithm, is being rounded). -/
noncomputable def pyRoundR (d : ℕ) (x : ℝ) : ℝ := (round (x * 10 ^ d) : ℤ) / 10 ^ d

/-- Mean of a list of rationals (`np.mean`); numpy yields `NaN` on an empty
list, modelled by Lean's `x / 0 = 0` and never inspected on `[]`. -/
def listMean (l : List ℚ) : ℚ := l.sum / l.length

/-- `str(value)` as applied by `.astype(str)` to a cell: a pandas null
(`NaN`) is stringified to `"nan"`, a present string is unchanged.  This is
exactly the behaviour that makes nulls non-empty after stripping. -/
def pyStr (c : Option String) : String := c.getD "nan"

/-- Python `str.strip()`: drop leading and trailing whitespace.  (Defined
over the character list so that it evaluates by kernel reduction.) -/
def pyStrip (s : String) : String :=
  String.mk
    (((s.toList.dropWhile (fun c => c.isWhitespace)).reverse.dropWhile
        (fun c => c.isWhitespace)).reverse)

/-- Python `str.lower()` (ASCII case folding, character by character). -/
def pyLower (s : String) : String := String.mk (s.toList.map (fun c => c.toLower))

/-- Split a character list on whitespace into maximal runs (the runs of
Python `str.split()` before empty runs are dropped). -/
def wsSplit (l : List Char) : List (List Char) :=
  l.foldr
    (fun c acc =>
      if c.isWhitespace then [] :: acc
      else
        match acc with
        | [] => [[c]]
        | t :: ts => (c :: t) :: ts)
    []

/-- One grouping step: bump the count of `v`, or append a fresh `(v, 1)`
entry. -/
def bumpCount (acc : List (String × ℕ)) (v : String) : List (String × ℕ) :=
  if acc.any (fun p => p.1 = v) then
    acc.map (fun p => if p.1 = v then (p.1, p.2 + 1) else p)
  else acc ++ [(v, 1)]

/-- Occurrence counts of the values of a list, in order of first
appearance (the grouping step of `pandas.Series.value_counts`). -/
def countOccs (l : List String) : List (String × ℕ) := l.foldl bumpCount []

/-- Insert into a count-descending list, keeping the descent and stability. -/
def insertDesc (p : String × ℕ) : List (String × ℕ) → List (String × ℕ)
  | [] => [p]
  | q :: rest => if p.2 ≤ q.2 then q :: insertDesc p rest else p :: q :: rest

/-- Stable sort by count, descending: the ordering step of
`pandas.Series.value_counts`. -/
def sortCountDesc : List (String × ℕ) → List (String × ℕ)
  | [] => []
  | p :: rest => insertDesc p (sortCountDesc rest)

/-- `pandas.Series.value_counts()`: distinct values with their counts,
sorted by count descending. -/
def valueCounts (l : List String) : List (String × ℕ) := sortCountDesc (countOccs l)

/-- A tabular dataset: named columns over rows of nullable string cells.
Each row is positionally aligned with `colNames`. -/
structure DataFrame where
  colNames : List String
  rows : List (List (Option String))

/-- `len(df)`. -/
def DataFrame.nrows (df : DataFrame) : ℕ := df.rows.length

/-- The cell of row `r` in column `c` (`df.loc[row, c]`).  A column name
absent from the dataset is conflated with a null cell; no claim in scope
exercises a missing column. -/
def DataFrame.cellAt (df : DataFrame) (r : List (Option String)) (c : String) : Option String :=
  match df.colNames.findIdx? (fun n => n = c) with
  | some i => (r.get? i).getD none
  | none => none

/-- Column selection `df[c]` as the list of the column's cells. -/
def DataFrame.col (df : DataFrame) (c : String) : List (Option String) :=
  df.rows.map (fun r => df.cellAt r c)

/-! ## `src/metrics/completeness.py` -/

/-- One entry of `results["column_completeness"]` in `analyze_completeness`. -/
structure ColumnCompleteness where
  non_null_count : ℕ
  non_empty_count : ℕ
  completeness_pct : ℚ
  missing_count : ℕ
deriving DecidableEq

/-- `results["row_completeness"]` in `analyze_completeness`. -/
structure RowCompleteness where
  all_codes_present : ℕ
  no_codes_present : ℕ
  partial_codes : ℕ
  avg_codes_per_row : ℚ
deriving DecidableEq

/-- Result of `analyze_completeness`. -/
structure CompletenessResult where
  total_rows : ℕ
  column_completeness : List (String × ColumnCompleteness)
  row_completeness : RowCompleteness
  overall_score : ℚ
deriving DecidableEq

/-- The per-column body of the first loop of `analyze_completeness`:
`non_null = df[col].notna().sum()`,
`non_empty = df[col].astype(str).str.strip().ne('').sum()` — note that
`.astype(str)` stringifies a null to `"nan"`, so a null cell is counted as
non-empty — `completeness_pct = round(non_empty / total_rows * 100, 2)`,
`missing_count = total_rows - non_empty`.  On a 0-row dataset Python yields
`NaN` for the percentage (modelled as `0`, never inspected by a claim). -/
def analyze_column_completeness (cells : List (Option String)) (total_rows : ℕ) :
    ColumnCompleteness :=
  let non_null := cells.countP (fun c => c.isSome)
  let non_empty := cells.countP (fun c => pyStrip (pyStr c) ≠ "")
  { non_null_count := non_null
    non_empty_count := non_empty
    completeness_pct := pyRound 2 ((non_empty : ℚ) / total_rows * 100)
    missing_count := total_rows - non_empty }

/-- `analyze_completeness(df, product_id_col, description_col, code_cols)`. -/
def analyze_completeness (df : DataFrame) (product_id_col description_col : String)
    (code_cols : List String) : CompletenessResult :=
  let total_rows := df.nrows
  let column_completeness :=
    ([product_id_col, description_col] ++ code_cols).map
      (fun c => (c, analyze_column_completeness (df.col c) total_rows))
  let rowCounts := df.rows.map (fun r => code_cols.countP (fun c => (df.cellAt r c).isSome))
  { total_rows := total_rows
    column_completeness := column_completeness
    row_completeness :=
      { all_codes_present := rowCounts.countP (fun n => n = code_cols.length)
        no_codes_present := rowCounts.countP (fun n => n = 0)
        partial_codes := rowCounts.countP (fun n => 0 < n ∧ n < code_cols.length)
        avg_codes_per_row := pyRound 2 ((rowCounts.sum : ℚ) / total_rows) }
    overall_score := pyRound 2 (listMean (column_completeness.map (fun p => p.2.completeness_pct))) }

/-! ## `src/metrics/description_quality.py` -/

/-- Number of characters of `s` that survive `re.sub(r'[^0-9]', '', s)`:
its ASCII digits. -/
def digitCount (s : String) : ℕ := s.toList.countP (fun c => c.isDigit)

/-- Number of characters of `s` that survive `re.sub(r'[a-zA-Z0-9\s]', '', s)`:
neither ASCII letters, digits, nor whitespace. -/
def specialCount (s : String) : ℕ :=
  s.toList.countP (fun c => ¬ (c.isAlpha ∨ c.isDigit ∨ c.isWhitespace))

/-- Python `' '.join(descriptions).lower().split()`: whitespace-tokenize the
lower-cased concatenation, dropping empty tokens (Python `str.split()` with
no argument never yields empty tokens). -/
def tokenize (descriptions : List String) : List String :=
  ((wsSplit (pyLower (" ".intercalate descriptions)).toList).filter
      (fun t => t ≠ [])).map String.mk

/-- `pandas.Series.median()` of a list of naturals: middle element of the
sorted list, or the mean of the two middle elements. -/
def medianQ (l : List ℕ) : ℚ :=
  let sorted := l.mergeSort (fun a b => a ≤ b)
  let n := l.length
  if n % 2 = 1 then (sorted.getD (n / 2) 0 : ℚ)
  else ((sorted.getD (n / 2 - 1) 0 : ℚ) + (sorted.getD (n / 2) 0 : ℚ)) / 2

/-- Result of `analyze_description_quality`.  The `std` length statistic is
omitted: it is `round(lengths.std(), 2)` (`NaN` for a single description),
feeds nothing, is coerced by no `int()`, and no claim mentions it. -/
structure DescQualityResult where
  length_mean : ℚ
  length_median : ℚ
  length_min : ℕ
  length_max : ℕ
  unique_words : ℕ
  total_words : ℕ
  vocabulary_richness : ℚ
  too_short : ℕ
  too_short_pct : ℚ
  mostly_numeric : ℕ
  high_special_chars : ℕ
  duplicate_count : ℕ
  total_duplicate_rows : ℕ
  top_duplicates : List (String × ℕ)
  overall_score : ℚ
deriving DecidableEq

/-- `analyze_description_quality(df[description_col], min_length)` over the
description column's cells.  `descriptions = df[col].dropna().astype(str)`;
when no description is non-null, `int(lengths.min())` is `int(nan)` and
raises `ValueError` (the first statement of the function that can raise).
The `mostly_numeric` / `high_special_chars` ratios of a zero-length
description are numpy `0/0 = NaN` which compares false against the
threshold, matching `0 > t` under Lean's `0/0 = 0`. -/
def analyze_description_quality (cells : List (Option String)) (min_length : ℕ) :
    Except PyError DescQualityResult :=
  let descriptions := cells.filterMap id
  if descriptions.isEmpty then .error .valueErrorNanToInt
  else
    let n := descriptions.length
    let lengths := descriptions.map String.length
    let all_words := tokenize descriptions
    let unique_words := all_words.dedup.length
    let total_words := all_words.length
    let duplicates := (valueCounts descriptions).filter (fun p => 1 < p.2)
    let too_short := lengths.countP (fun len => len < min_length)
    let mostly_numeric :=
      descriptions.countP (fun s => (1 : ℚ) / 2 < (digitCount s : ℚ) / s.length)
    let high_special :=
      descriptions.countP (fun s => (3 : ℚ) / 10 < (specialCount s : ℚ) / s.length)
    let score : ℚ :=
      100 - min ((too_short : ℚ) / n * 100) 30
          - min ((duplicates.length : ℚ) / n * 100) 20
          - min ((mostly_numeric : ℚ) / n * 100) 20
    .ok
      { length_mean := pyRound 2 ((lengths.sum : ℚ) / n)
        length_median := pyRound 2 (medianQ lengths)
        length_min := (lengths.min?).getD 0
        length_max := (lengths.max?).getD 0
        unique_words := unique_words
        total_words := total_words
        vocabulary_richness :=
          if 0 < total_words then pyRound 4 ((unique_words : ℚ) / total_words) else 0
        too_short := too_short
        too_short_pct := pyRound 2 ((too_short : ℚ) / n * 100)
        mostly_numeric := mostly_numeric
        high_special_chars := high_special
        duplicate_count := duplicates.length
        total_duplicate_rows := (duplicates.map (fun p => p.2)).sum - duplicates.length
        top_duplicates := duplicates.take 10
        overall_score := pyRound 2 (max score 0) }

/-! ## `src/metrics/code_analysis.py` -/

/-- `calculate_entropy(value_counts)`:
`-np.sum(p * np.log2(p + 1e-10))` with `p = value_counts / value_counts.sum()`,
over the counts of a `value_counts` series. -/
noncomputable def calculate_entropy (counts : List ℕ) : ℝ :=
  -((counts.map
      (fun (c : ℕ) =>
        (c : ℝ) / (counts.sum : ℝ) * Real.logb 2 ((c : ℝ) / (counts.sum : ℝ) + 1e-10))).sum)

/-- One entry of `results["code_columns"]` in `analyze_code_distribution`.
The `most_common` and `rare_codes` listings are value-to-count maps read off
`valueCounts` (`.head(10)` / first 20); no claim mentions them beyond
`rare_codes_count`. -/
structure CodeColumnStats where
  unique_codes : ℕ
  most_common : List (String × ℕ)
  rare_codes_count : ℕ
  rare_codes : List (String × ℕ)
  distribution_entropy : ℝ
  top_code_concentration : ℚ

/-- The per-column loop body of `analyze_code_distribution`:
`code_values = df[col].dropna()`, `value_counts = code_values.value_counts()`,
rare codes are those with `count < total_rows * rare_threshold` (strict),
`distribution_entropy = round(calculate_entropy(value_counts), 4)`,
`top_code_concentration = round(value_counts.iloc[0] / total_rows * 100, 2)`
(or `0` when there is no value). -/
noncomputable def analyze_code_column (cells : List (Option String)) (total_rows : ℕ)
    (rare_threshold : ℚ) : CodeColumnStats :=
  let code_values := cells.filterMap id
  let vc := valueCounts code_values
  let rare := vc.filter (fun p => (p.2 : ℚ) < total_rows * rare_threshold)
  { unique_codes := vc.length
    most_common := vc.take 10
    rare_codes_count := rare.length
    rare_codes := if rare.length ≤ 20 then rare else rare.take 20
    distribution_entropy := pyRoundR 4 (calculate_entropy (vc.map (fun p => p.2)))
    top_code_concentration :=
      match vc.head? with
      | some p => pyRound 2 ((p.2 : ℚ) / total_rows * 100)
      | none => 0 }

/-- Result of `analyze_code_distribution`.  The `co_occurrence` section
(pairs among the first three code columns) is omitted: no claim mentions it
and it feeds neither the score nor any error path. -/
structure CodeDistResult where
  code_columns : List (String × CodeColumnStats)
  overall_score : ℝ

/-- `analyze_code_distribution(df, code_cols, rare_threshold)`:
per-column stats plus
`overall_score = round(min(avg_entropy / 5 * 100, 100), 2)` where
`avg_entropy` is the mean of the (rounded) per-column entropies, `0` when
there is no code column. -/
noncomputable def analyze_code_distribution (df : DataFrame) (code_cols : List String)
    (rare_threshold : ℚ) : CodeDistResult :=
  let code_columns :=
    code_cols.map (fun c => (c, analyze_code_column (df.col c) df.nrows rare_threshold))
  let entropies := code_columns.map (fun p => p.2.distribution_entropy)
  let avg_entropy : ℝ := if entropies.isEmpty then 0 else entropies.sum / entropies.length
  { code_columns := code_columns
    overall_score := pyRoundR 2 (min (avg_entropy / 5 * 100) 100) }

/-! ## `src/metrics/classifier_readiness.py` -/

/-- `calculate_split_recommendation(class_counts, min_samples)`: four-tier
policy on the smallest class size. -/
def calculate_split_recommendation (class_counts : List (String × ℕ)) (min_samples : ℕ) :
    String :=
  let smallest := ((class_counts.map (fun p => p.2)).min?).getD 0
  if smallest < min_samples then "Insufficient data - collect more samples"
  else if smallest < min_samples * 2 then "90/10 split (limited data)"
  else if smallest < min_samples * 3 then "80/20 split (recommended)"
  else "70/30 or 80/20 split"

/-- The full per-column metrics dict of `analyze_classifier_readiness`
(the branch with at least one usable row).  `class_imbalance_ratio` is
`float('inf')` when the smallest class is empty — impossible for observed
classes — modelled as `Option ℚ` with `none` for infinity. -/
structure ColMetrics where
  total_samples : ℕ
  unique_classes : ℕ
  classes_with_sufficient_data : ℕ
  classes_needing_more_data : ℕ
  min_class_size : ℕ
  max_class_size : ℕ
  median_class_size : ℤ
  class_imbalance_ratio : Option ℚ
  avg_description_uniqueness : ℚ
  ambiguous_descriptions : ℕ
  ready_for_training : Bool
  recommended_train_test_split : String
deriving DecidableEq

/-- A `results["per_code_column"]` entry: either the reduced
`insufficient_data` dict (`status`, `unique_classes = 0`,
`ready_for_training = False`) or the full metrics dict. -/
inductive ColReadiness where
  | insufficient_data : ColReadiness
  | metrics : ColMetrics → ColReadiness
deriving DecidableEq

/-- `ready_for_training` as the aggregation loop reads it:
`v.get("ready_for_training", False)`. -/
def ColReadiness.ready : ColReadiness → Bool
  | .insufficient_data => false
  | .metrics m => m.ready_for_training

/-- A critical-issue entry.  The Python code appends formatted strings;
they are modelled as tagged values carrying the same column name and
number, in the same order. -/
inductive Issue where
  | lowCompleteness : String → ℚ → Issue
  | tooShortDescriptions : ℚ → Issue
  | ambiguousDescriptions : String → ℕ → Issue
  | severeImbalance : String → Option ℚ → Issue
deriving DecidableEq

/-- Result of `analyze_classifier_readiness`. -/
structure ReadinessResult where
  per_code_column : List (String × ColReadiness)
  columns_ready : ℕ
  columns_not_ready : ℕ
  readiness_pct : ℚ
  data_quality_issues : List Issue
  overall_score : ℚ
deriving DecidableEq

/-- The per-column loop body of `analyze_classifier_readiness`:
`valid_data = df[[description_col, col]].dropna()`; zero usable rows yield
the reduced `insufficient_data` dict and `continue`; otherwise the class
distribution, description-uniqueness, ambiguity, verdict
(`classes_with_min_samples >= max(2, len(class_counts) * 0.7)`; the float
literal `0.7` is the rational `7/10` here — for the integer left-hand side
the comparison agrees with Python's float evaluation, whose value lies
strictly between the two integers around `len * 0.7` whenever they differ)
and split recommendation. -/
def analyze_readiness_column (validPairs : List (String × String)) (min_samples : ℕ) :
    ColReadiness :=
  if validPairs.isEmpty then .insufficient_data
  else
    let class_counts := valueCounts (validPairs.map (fun p => p.2))
    let classes_with_min := class_counts.countP (fun p => min_samples ≤ p.2)
    let uniqueness_ratios := class_counts.map
      (fun p =>
        (((validPairs.filterMap
            (fun q => if q.2 = p.1 then some q.1 else none)).dedup.length : ℚ) / p.2))
    let distinct_descs := (validPairs.map (fun p => p.1)).dedup
    let ambiguous := distinct_descs.countP
      (fun d =>
        1 < (validPairs.filterMap (fun q => if q.1 = d then some q.2 else none)).dedup.length)
    let sizes := class_counts.map (fun p => p.2)
    let mn := (sizes.min?).getD 0
    let mx := (sizes.max?).getD 0
    .metrics
      { total_samples := validPairs.length
        unique_classes := class_counts.length
        classes_with_sufficient_data := classes_with_min
        classes_needing_more_data := class_counts.length - classes_with_min
        min_class_size := mn
        max_class_size := mx
        median_class_size := ⌊medianQ sizes⌋
        class_imbalance_ratio := if 0 < mn then some (pyRound 2 ((mx : ℚ) / mn)) else none
        avg_description_uniqueness := pyRound 4 (listMean uniqueness_ratios)
        ambiguous_descriptions := ambiguous
        ready_for_training :=
          decide (max 2 ((class_counts.length : ℚ) * (7 / 10)) ≤ (classes_with_min : ℚ))
        recommended_train_test_split := calculate_split_recommendation class_counts min_samples }

/-- The rows of `df[[description_col, col]].dropna()`: the (description,
code) pairs of the rows where both are non-null. -/
def DataFrame.validPairs (df : DataFrame) (description_col col : String) :
    List (String × String) :=
  df.rows.filterMap
    (fun r =>
      match df.cellAt r description_col, df.cellAt r col with
      | some d, some v => some (d, v)
      | _, _ => none)

/-- The issue extraction loop of `analyze_classifier_readiness`: per column,
in order, an ambiguity issue when `ambiguous_descriptions > 10` (the
`insufficient_data` dict reads `0` via `.get`), then an imbalance issue when
`class_imbalance_ratio > 100` (`inf`, i.e. `none`, compares greater). -/
def readiness_issues (per : List (String × ColReadiness)) : List Issue :=
  (per.map
    (fun p =>
      match p.2 with
      | .insufficient_data => []
      | .metrics m =>
        (if 10 < m.ambiguous_descriptions then [Issue.ambiguousDescriptions p.1 m.ambiguous_descriptions] else [])
          ++ (if (match m.class_imbalance_ratio with
                  | none => true
                  | some q => decide (100 < q)) then
                [Issue.severeImbalance p.1 m.class_imbalance_ratio] else []))).flatten

/-- `analyze_classifier_readiness(df, description_col, code_cols, min_samples)`.
`readiness_pct = round(ready_columns / len(code_cols) * 100, 2)` — a zero
`code_cols` raises `ZeroDivisionError` in Python; no claim passes one, and
the `ℚ` convention `x / 0 = 0` stands in for it. -/
def analyze_classifier_readiness (df : DataFrame) (description_col : String)
    (code_cols : List String) (min_samples : ℕ) : ReadinessResult :=
  let per := code_cols.map
    (fun col => (col, analyze_readiness_column (df.validPairs description_col col) min_samples))
  let ready_columns := per.countP (fun p => p.2.ready)
  let readiness_pct := pyRound 2 ((ready_columns : ℚ) / code_cols.length * 100)
  { per_code_column := per
    columns_ready := ready_columns
    columns_not_ready := code_cols.length - ready_columns
    readiness_pct := readiness_pct
    data_quality_issues := readiness_issues per
    overall_score := pyRound 2 readiness_pct }

/-! ## `src/config.py` and `src/analyzer.py` -/

/-- `config.WEIGHTS`: the fixed component weight mapping. -/
def WEIGHTS : List (String × ℚ) :=
  [("completeness", 3 / 10), ("description_quality", 3 / 10),
   ("code_distribution", 1 / 5), ("classifier_readiness", 1 / 5)]

/-- Dict lookup `d[k]` over an association list (a `KeyError` is a `none`). -/
def dictGet (d : List (String × ℚ)) (k : String) : Option ℚ :=
  (d.find? (fun p => p.1 = k)).map (fun p => p.2)

/-- `config.get_quality_level(score)`: the top-down threshold chain. -/
noncomputable def get_quality_level (score : ℝ) : String :=
  if 90 ≤ score then "excellent"
  else if 75 ≤ score then "good"
  else if 60 ≤ score then "fair"
  else if 40 ≤ score then "poor"
  else "critical"

/-- `results["overall"]` of `DataQualityAnalyzer`. -/
structure OverallResult where
  overall_score : ℝ
  quality_level : String
  component_scores : ℚ × ℚ × ℝ × ℚ

/-- The successful branch of `_calculate_overall_score`: the weighted sum
(unrounded) feeds `get_quality_level`, the reported score is rounded to two
decimals. -/
noncomputable def mkOverall (w1 w2 w3 w4 : ℚ) (sComp sDesc : ℚ) (sCode : ℝ) (sClf : ℚ) :
    OverallResult :=
  { overall_score :=
      pyRoundR 2 ((sComp : ℝ) * (w1 : ℝ) + (sDesc : ℝ) * (w2 : ℝ) + sCode * (w3 : ℝ)
        + (sClf : ℝ) * (w4 : ℝ))
    quality_level :=
      get_quality_level ((sComp : ℝ) * (w1 : ℝ) + (sDesc : ℝ) * (w2 : ℝ) + sCode * (w3 : ℝ)
        + (sClf : ℝ) * (w4 : ℝ))
    component_scores := (sComp, sDesc, sCode, sClf) }

/-- `DataQualityAnalyzer._calculate_overall_score`, parameterized by the
weight mapping it reads (`config.WEIGHTS`, a plain module constant):
`overall = sum(scores[k] * WEIGHTS[k] for k in scores.keys())`.  The four
keys iterated are exactly the four component score keys; a key of `scores`
absent from the weight mapping is a `KeyError` (`none`); weight keys with
no matching component are never looked up; no validation of any kind is
performed on the weights. -/
noncomputable def calculate_overall_score (weights : List (String × ℚ)) (sComp sDesc : ℚ)
    (sCode : ℝ) (sClf : ℚ) : Option OverallResult :=
  match dictGet weights "completeness", dictGet weights "description_quality",
      dictGet weights "code_distribution", dictGet weights "classifier_readiness" with
  | some w1, some w2, some w3, some w4 => some (mkOverall w1 w2 w3 w4 sComp sDesc sCode sClf)
  | _, _, _, _ => none

/-- The full result tree of `DataQualityAnalyzer.analyze_all`. -/
structure AllResults where
  completeness : CompletenessResult
  description_quality : DescQualityResult
  code_distribution : CodeDistResult
  classifier_readiness : ReadinessResult
  overall : OverallResult

/-- `DataQualityAnalyzer.analyze_all` with resolved column roles: runs the
four analyzers in order (defaults `min_length = 20`,
`rare_threshold = 0.005`, `min_samples = 50`), then the aggregation.  An
exception anywhere aborts the whole run with no result; only
`analyze_description_quality` (on a dataset with no non-null description)
and the weight lookup can raise on the inputs in scope. -/
noncomputable def analyze_all (df : DataFrame) (product_id_col description_col : String)
    (code_cols : List String) : Except PyError AllResults :=
  let comp := analyze_completeness df product_id_col description_col code_cols
  match analyze_description_quality (df.col description_col) 20 with
  | .error e => .error e
  | .ok dq =>
    let cd := analyze_code_distribution df code_cols (1 / 200)
    let cr := analyze_classifier_readiness df description_col code_cols 50
    match calculate_overall_score WEIGHTS comp.overall_score dq.overall_score
        cd.overall_score cr.overall_score with
    | some ov =>
      .ok
        { completeness := comp
          description_quality := dq
          code_distribution := cd
          classifier_readiness := cr
          overall := ov }
    | none => .error (.keyError "component weight")

/-- `DataQualityAnalyzer._get_critical_issues`: concatenate, in order, the
columns under 80% completeness (in column order), a too-short-descriptions
warning when `too_short_pct > 10`, and the classifier-readiness issues,
then keep the first 10 (`issues[:10]`). -/
def get_critical_issues (comp : CompletenessResult) (dq : DescQualityResult)
    (cr : ReadinessResult) : List Issue :=
  (((comp.column_completeness.filter (fun p => p.2.completeness_pct < 80)).map
      (fun p => Issue.lowCompleteness p.1 p.2.completeness_pct))
    ++ (if 10 < dq.too_short_pct then [Issue.tooShortDescriptions dq.too_short_pct] else [])
    ++ cr.data_quality_issues).take 10

/-! ## Concrete datasets and inputs used by the theorems below -/

/-- A one-row dataset whose description cell is null. -/
def dfNullCell : DataFrame :=
  { colNames := ["product_id", "description"]
    rows := [[some "p1", none]] }

/-- 100 description cells: 85 distinct strings of length ≥ 21 and 15
distinct strings of length ≤ 5 (all under the default threshold 20), none
duplicated, none mostly numeric. -/
def c3cells : List (Option String) :=
  (List.range 85).map (fun i => some (Nat.repr i ++ "aaaaaaaaaaaaaaaaaaaa"))
    ++ (List.range 15).map (fun i => some (Nat.repr i ++ "bbb"))

/-- A 100-row code column with value counts `{"A": 95, "B": 5}`. -/
def cellsC4 : List (Option String) :=
  List.replicate 95 (some "A") ++ List.replicate 5 (some "B")

/-- 202 usable (description, code) pairs with class sizes `{X: 200, Y: 2}`. -/
def pairsC5 : List (String × String) :=
  List.replicate 200 ("d", "X") ++ List.replicate 2 ("d", "Y")

/-- Two rows, two code columns: `code_1` entirely null (zero usable rows),
`code_2` fully populated with two classes. -/
def dfC6 : DataFrame :=
  { colNames := ["description", "code_1", "code_2"]
    rows := [[some "d", none, some "X"], [some "d", none, some "Y"]] }

/-- A weight mapping carrying all four component keys whose values sum to
`0.4`, not `1.0`. -/
def badWeights : List (String × ℚ) :=
  [("completeness", 1 / 10), ("description_quality", 1 / 10),
   ("code_distribution", 1 / 10), ("classifier_readiness", 1 / 10)]

/-- A fully populated one-row dataset on which `analyze_all` succeeds. -/
def dfW : DataFrame :=
  { colNames := ["product_id", "description", "code_1"]
    rows := [[some "p1", some "a reasonably long description", some "X"]] }

/-- An empty dataset: the standard columns, zero rows. -/
def dfEmpty : DataFrame :=
  { colNames := ["product_id", "description", "code_1"]
    rows := [] }

/-! ## Helper lemmas -/

/-
The Batteries rational-number operations are `@[irreducible]`, which blocks
elaborator-side evaluation of concrete `ℚ` expressions; making them
semireducible again lets `decide` and `rfl` evaluate the analyzers on the
concrete datasets above.
-/
unseal Rat.add Rat.mul Rat.inv Rat.sub Rat.ofScientific

/-- Every natural is exactly one of: equal to a nonzero `k`, zero, or
strictly between — so the three row classifications partition the rows. -/
theorem countP_trichotomy (k : ℕ) (hk : k ≠ 0) (l : List ℕ) (hle : ∀ a ∈ l, a ≤ k) :
    l.countP (fun n => n = k) + l.countP (fun n => n = 0)
      + l.countP (fun n => 0 < n ∧ n < k) = l.length := by
  induction l with
  | nil => simp
  | cons a t ih =>
    have ha : a ≤ k := hle a (List.mem_cons_self a t)
    have ht := ih (fun b hb => hle b (List.mem_cons_of_mem a hb))
    simp only [List.countP_cons, decide_eq_true_eq, List.length_cons]
    split_ifs <;> omega

/-- A single grouped entry absorbs a repeated value. -/
theorem bumpCount_same (v : String) (k : ℕ) : bumpCount [(v, k)] v = [(v, k + 1)] := by
  simp [bumpCount]

/-- Counting occurrences of a constant run. -/
theorem countOccs_replicate (n : ℕ) (v : String) (hn : 0 < n) :
    countOccs (List.replicate n v) = [(v, n)] := by
  have step : ∀ (m k : ℕ),
      List.foldl bumpCount [(v, k)] (List.replicate m v) = [(v, k + m)] := by
    intro m
    induction m with
    | zero => intro k; simp
    | succ m ih =>
      intro k
      rw [List.replicate_succ, List.foldl_cons, bumpCount_same, ih]
      have h3 : k + 1 + m = k + (m + 1) := by omega
      rw [h3]
  obtain ⟨m, rfl⟩ : ∃ m, n = m + 1 := ⟨n - 1, by omega⟩
  unfold countOccs
  rw [List.replicate_succ, List.foldl_cons]
  have h0 : bumpCount [] v = [(v, 1)] := by simp [bumpCount]
  rw [h0, step]
  have h4 : 1 + m = m + 1 := by omega
  rw [h4]

/-! ## Claim theorems -/

/-- Claim C1 (code bug): the completeness analyzer is claimed to count a
cell as present only if non-null and non-empty after trimming.  The code
instead applies `.astype(str)` before the emptiness test, which turns a
null into the non-empty string `"nan"`: on a one-row dataset whose
description cell is null, the description column is reported with
`non_null_count = 0` yet `non_empty_count = 1`, `completeness_pct = 100`
and `missing_count = 0` — the null cell is counted as present. -/
theorem claim_C1_null_counted_present :
    (analyze_completeness dfNullCell "product_id" "description" []).column_completeness =
      [("product_id",
        { non_null_count := 1, non_empty_count := 1, completeness_pct := 100,
          missing_count := 0 }),
       ("description",
        { non_null_count := 0, non_empty_count := 1, completeness_pct := 100,
          missing_count := 0 })] := by
  decide

/-- Claim C2, counterexample: with the empty code-column set, every row has
a code count equal to both `0` and the number of code columns, so it is
counted in both the all-present and none-present buckets: on a one-row
dataset the three counts sum to `2`, not to the total row count `1`. -/
theorem claim_C2_counterexample :
    ¬ ((analyze_completeness dfNullCell "product_id" "description" []).row_completeness.all_codes_present
        + (analyze_completeness dfNullCell "product_id" "description" []).row_completeness.no_codes_present
        + (analyze_completeness dfNullCell "product_id" "description" []).row_completeness.partial_codes
      = (analyze_completeness dfNullCell "product_id" "description" []).total_rows) := by
  decide

/-- Claim C2 as amended: for every dataset and every NONEMPTY set of code
columns, the row completeness summary classifies each row into exactly one
of all-codes-present, no-codes-present, or partial, so the three counts sum
to the total row count.  (With the empty code set the all-present and
none-present conditions coincide and each row is counted twice.) -/
theorem claim_C2_amended (df : DataFrame) (product_id_col description_col : String)
    (code_cols : List String) (h : code_cols ≠ []) :
    (analyze_completeness df product_id_col description_col code_cols).row_completeness.all_codes_present
        + (analyze_completeness df product_id_col description_col code_cols).row_completeness.no_codes_present
        + (analyze_completeness df product_id_col description_col code_cols).row_completeness.partial_codes
      = (analyze_completeness df product_id_col description_col code_cols).total_rows := by
  have hk : code_cols.length ≠ 0 := by
    intro hlen
    exact h (List.eq_nil_of_length_eq_zero hlen)
  have hle : ∀ a ∈ df.rows.map (fun r => code_cols.countP (fun c => (df.cellAt r c).isSome)),
      a ≤ code_cols.length := by
    intro a ha
    obtain ⟨r, _, rfl⟩ := List.mem_map.mp ha
    exact List.countP_le_length _
  simpa [analyze_completeness, DataFrame.nrows] using
    countP_trichotomy code_cols.length hk
      (df.rows.map (fun r => code_cols.countP (fun c => (df.cellAt r c).isSome))) hle

/-- Claim C2, witness for the amended theorem at a concrete dataset with a
nonempty code-column set. -/
theorem claim_C2_amended_witness :
    (["code_1", "code_2"] : List String) ≠ [] ∧
    (analyze_completeness dfC6 "description" "description" ["code_1", "code_2"]).row_completeness.all_codes_present
        + (analyze_completeness dfC6 "description" "description" ["code_1", "code_2"]).row_completeness.no_codes_present
        + (analyze_completeness dfC6 "description" "description" ["code_1", "code_2"]).row_completeness.partial_codes
      = (analyze_completeness dfC6 "description" "description" ["code_1", "code_2"]).total_rows :=
  ⟨by decide, claim_C2_amended dfC6 "description" "description" ["code_1", "code_2"] (by decide)⟩

/-- Claim C3: for every dataset with at least one non-null description, the
description quality `overall_score` equals 100 minus the too-short penalty
capped at 30, minus the duplicate-group penalty capped at 20, minus the
mostly-numeric penalty capped at 20, clamped below at 0 (reported rounded
to two decimals; the code applies the caps to the unrounded percentages);
in the concrete scenario where exactly 15 of 100 non-null descriptions are
shorter than the threshold 20, `too_short = 15`, `too_short_pct = 15.0`,
and the reported score is exactly `100 - 15 = 85`: the too-short penalty
contributes exactly 15 points. -/
theorem claim_C3_description_score :
    (∀ (cells : List (Option String)) (min_length : ℕ) (r : DescQualityResult),
      analyze_description_quality cells min_length = .ok r →
      r.overall_score =
        pyRound 2 (max (100
          - min ((((cells.filterMap id).filter (fun s => s.length < min_length)).length : ℚ)
              / (cells.filterMap id).length * 100) 30
          - min ((r.duplicate_count : ℚ) / (cells.filterMap id).length * 100) 20
          - min ((r.mostly_numeric : ℚ) / (cells.filterMap id).length * 100) 20) 0)
      ∧ r.too_short = ((cells.filterMap id).filter (fun s => s.length < min_length)).length
      ∧ r.too_short_pct =
          pyRound 2 ((((cells.filterMap id).filter (fun s => s.length < min_length)).length : ℚ)
            / (cells.filterMap id).length * 100))
    ∧ ((analyze_description_quality c3cells 20).toOption.map
        (fun r => (r.too_short, r.too_short_pct, r.overall_score, r.duplicate_count,
          r.mostly_numeric))) = some (15, 15, 85, 0, 0) := by
  constructor
  · intro cells min_length r h
    unfold analyze_description_quality at h
    by_cases he : (cells.filterMap id).isEmpty
    · rw [if_pos he] at h
      exact absurd h (by simp)
    · rw [if_neg he] at h
      cases h
      have hts : List.countP (fun len => decide (len < min_length))
            (List.map String.length (cells.filterMap id))
          = ((cells.filterMap id).filter (fun s => decide (s.length < min_length))).length := by
        rw [List.countP_map, List.countP_eq_length_filter]
        rfl
      refine ⟨?_, ?_, ?_⟩ <;> simp only [hts]
  · set_option maxRecDepth 4000 in decide

/-- Claim C3, witness: the general score formula applied to the concrete
100-description dataset. -/
theorem claim_C3_witness :
    ∃ r, analyze_description_quality c3cells 20 = Except.ok r ∧
      r.too_short = ((c3cells.filterMap id).filter (fun s => s.length < 20)).length := by
  obtain ⟨r, hr⟩ : ∃ r, analyze_description_quality c3cells 20 = Except.ok r := ⟨_, rfl⟩
  exact ⟨r, hr, (claim_C3_description_score.1 c3cells 20 r hr).2.1⟩

/-- Claim C10: `analyze_description_quality` yields a report only when at
least one description is non-null.  When every description cell of a
dataset is null (in particular for a non-empty dataset whose description
column is entirely null), the `int()` coercion of the `NaN` minimum length
raises `ValueError` instead of returning a degraded report; conversely any
dataset with a non-null description yields a report. -/
theorem claim_C10_all_null_descriptions_raise :
    (∀ (cells : List (Option String)) (min_length : ℕ),
      (∀ c ∈ cells, c = none) →
      analyze_description_quality cells min_length = .error .valueErrorNanToInt)
    ∧ (∀ (cells : List (Option String)) (min_length : ℕ),
      (∃ c ∈ cells, c ≠ none) →
      ∃ r, analyze_description_quality cells min_length = .ok r) := by
  constructor
  · intro cells min_length hnull
    have he : (cells.filterMap id).isEmpty := by
      rw [List.isEmpty_iff, List.filterMap_eq_nil]
      intro c hc
      rw [hnull c hc]
      rfl
    unfold analyze_description_quality
    rw [if_pos he]
  · intro cells min_length ⟨c, hc, hne⟩
    have he : ¬ (cells.filterMap id).isEmpty := by
      rw [List.isEmpty_iff]
      intro hnil
      rw [List.filterMap_eq_nil] at hnil
      exact hne (hnil c hc)
    unfold analyze_description_quality
    rw [if_neg he]
    exact ⟨_, rfl⟩

/-- Claim C10, witness: a two-row dataset whose description column is
entirely null raises, and a dataset with one non-null description does
not. -/
theorem claim_C10_witness :
    analyze_description_quality [none, none] 20 = .error .valueErrorNanToInt ∧
    ∃ r, analyze_description_quality [some "abc", none] 20 = .ok r :=
  ⟨claim_C10_all_null_descriptions_raise.1 [none, none] 20 (by decide),
   claim_C10_all_null_descriptions_raise.2 [some "abc", none] 20 ⟨some "abc", by decide⟩⟩

/-- Claim C5: for every code column with at least one usable row the
readiness verdict is true iff `classes_with_sufficient_data` reaches
`max(2, unique_class_count * 0.7)`, and `classes_with_sufficient_data`
never exceeds `unique_class_count`; for the concrete column with class
sizes `{X: 200, Y: 2}` and `min_training_samples = 50` the imbalance ratio
is 100.0, one class clears the floor, the verdict is false, and the split
recommendation is "Insufficient data - collect more samples". -/
theorem claim_C5_readiness_verdict :
    (∀ (pairs : List (String × String)) (min_samples : ℕ),
      pairs ≠ [] →
      ∃ m, analyze_readiness_column pairs min_samples = .metrics m ∧
        (m.ready_for_training = true ↔
          max 2 ((m.unique_classes : ℚ) * (7 / 10)) ≤ (m.classes_with_sufficient_data : ℚ)) ∧
        m.classes_with_sufficient_data ≤ m.unique_classes)
    ∧ (∃ m, analyze_readiness_column pairsC5 50 = .metrics m ∧
        m.class_imbalance_ratio = some 100 ∧
        m.classes_with_sufficient_data = 1 ∧
        m.unique_classes = 2 ∧
        m.ready_for_training = false ∧
        m.recommended_train_test_split = "Insufficient data - collect more samples") := by
  constructor
  · intro pairs min_samples hne
    unfold analyze_readiness_column
    rw [if_neg (by simpa [List.isEmpty_iff] using hne)]
    refine ⟨_, rfl, ?_, ?_⟩
    · simp only [decide_eq_true_eq]
    · exact List.countP_le_length _
  · set_option maxRecDepth 8000 in refine ⟨_, rfl, ?_, ?_, ?_, ?_, ?_⟩ <;>
      set_option maxRecDepth 8000 in decide

/-- Claim C5, witness: the verdict characterization applied to the concrete
202-row column. -/
theorem claim_C5_witness :
    ∃ m, analyze_readiness_column pairsC5 50 = .metrics m ∧
      (m.ready_for_training = true ↔
        max 2 ((m.unique_classes : ℚ) * (7 / 10)) ≤ (m.classes_with_sufficient_data : ℚ)) ∧
      m.classes_with_sufficient_data ≤ m.unique_classes :=
  claim_C5_readiness_verdict.1 pairsC5 50 (by decide)

/-- Claim C6, counterexample to "excluded from readiness aggregation": on a
dataset with one zero-usable-row code column and one ready code column, the
insufficient column stays in the aggregation as a not-ready column — the
readiness percentage is 50, not the 100 that excluding it (1 ready column
out of 1 aggregated column) would give. -/
theorem claim_C6_counterexample :
    (analyze_classifier_readiness dfC6 "description" ["code_1", "code_2"] 1).per_code_column.countP
        (fun p => p.2 = ColReadiness.insufficient_data) = 1 ∧
    (analyze_classifier_readiness dfC6 "description" ["code_1", "code_2"] 1).per_code_column.countP
        (fun p => p.2.ready) = 1 ∧
    (analyze_classifier_readiness dfC6 "description" ["code_1", "code_2"] 1).readiness_pct = 50 ∧
    (analyze_classifier_readiness dfC6 "description" ["code_1", "code_2"] 1).readiness_pct ≠
      pyRound 2 ((1 : ℚ) / 1 * 100) := by
  refine ⟨?_, ?_, ?_, ?_⟩ <;> set_option maxRecDepth 8000 in decide

/-- Claim C6 as amended: a code column with zero usable rows does not make
the analyzer fail: it is recorded with status `insufficient_data` and
readiness false, its remaining metrics are skipped, every other code column
is still analyzed (the per-column table keeps one entry per code column, in
order), but the column is NOT excluded from the readiness aggregation: it
counts as a not-ready column, and the readiness percentage keeps the full
code-column count in its denominator. -/
theorem claim_C6_amended (df : DataFrame) (description_col : String)
    (code_cols : List String) (col : String) (min_samples : ℕ)
    (hmem : col ∈ code_cols) (hzero : df.validPairs description_col col = []) :
    (∀ p ∈ (analyze_classifier_readiness df description_col code_cols min_samples).per_code_column,
      p.1 = col → p.2 = ColReadiness.insufficient_data ∧ p.2.ready = false) ∧
    (analyze_classifier_readiness df description_col code_cols min_samples).per_code_column.map
        Prod.fst = code_cols ∧
    (analyze_classifier_readiness df description_col code_cols min_samples).columns_ready =
      (analyze_classifier_readiness df description_col code_cols min_samples).per_code_column.countP
        (fun p => p.2.ready) ∧
    (analyze_classifier_readiness df description_col code_cols min_samples).readiness_pct =
      pyRound 2
        (((analyze_classifier_readiness df description_col code_cols min_samples).columns_ready : ℚ)
          / code_cols.length * 100) := by
  refine ⟨?_, ?_, rfl, rfl⟩
  · intro p hp hcol
    unfold analyze_classifier_readiness at hp
    simp only [List.mem_map] at hp
    obtain ⟨c, hc, rfl⟩ := hp
    simp only at hcol
    subst hcol
    rw [hzero]
    exact ⟨rfl, rfl⟩
  · unfold analyze_classifier_readiness
    simp [List.map_map, Function.comp_def]

/-- Claim C6, witness for the amended theorem: the all-null `code_1` column
of the concrete two-column dataset. -/
theorem claim_C6_witness :
    (∀ p ∈ (analyze_classifier_readiness dfC6 "description" ["code_1", "code_2"] 1).per_code_column,
      p.1 = "code_1" → p.2 = ColReadiness.insufficient_data ∧ p.2.ready = false) ∧
    (analyze_classifier_readiness dfC6 "description" ["code_1", "code_2"] 1).per_code_column.map
        Prod.fst = ["code_1", "code_2"] ∧
    (analyze_classifier_readiness dfC6 "description" ["code_1", "code_2"] 1).columns_ready =
      (analyze_classifier_readiness dfC6 "description" ["code_1", "code_2"] 1).per_code_column.countP
        (fun p => p.2.ready) ∧
    (analyze_classifier_readiness dfC6 "description" ["code_1", "code_2"] 1).readiness_pct =
      pyRound 2
        (((analyze_classifier_readiness dfC6 "description" ["code_1", "code_2"] 1).columns_ready : ℚ)
          / (["code_1", "code_2"] : List String).length * 100) :=
  claim_C6_amended dfC6 "description" ["code_1", "code_2"] "code_1" 1 (by decide) (by decide)

/-- Claim C7, counterexample: a weight mapping that carries all four
component keys but sums to 0.4 does NOT make the aggregator fail — it
happily produces a score.  No weight validation of any kind exists at
aggregation time. -/
theorem claim_C7_counterexample :
    ((badWeights.map (fun p => p.2)).sum ≠ 1) ∧
    (calculate_overall_score badWeights 80 80 80 80).isSome = true := by
  exact ⟨by decide, rfl⟩

/-- Claim C7 as amended: the aggregator performs no validation of the
weights.  Any weight mapping that provides the four component keys yields a
score, whatever the weights sum to, and weight keys with no matching
component are silently ignored (the result depends only on the four
looked-up values); only a component key missing from the weight mapping
aborts the aggregation, with an untyped `KeyError` rather than a
`ConfigurationError`.  The shipped `WEIGHTS` constant does sum to exactly
1.0 (so within 1e-9). -/
theorem claim_C7_amended :
    ((WEIGHTS.map (fun p => p.2)).sum = 1) ∧
    (∀ (w : List (String × ℚ)) (sComp sDesc : ℚ) (sCode : ℝ) (sClf : ℚ) (w1 w2 w3 w4 : ℚ),
      dictGet w "completeness" = some w1 →
      dictGet w "description_quality" = some w2 →
      dictGet w "code_distribution" = some w3 →
      dictGet w "classifier_readiness" = some w4 →
      calculate_overall_score w sComp sDesc sCode sClf =
        some (mkOverall w1 w2 w3 w4 sComp sDesc sCode sClf)) ∧
    (∀ (w : List (String × ℚ)) (sComp sDesc : ℚ) (sCode : ℝ) (sClf : ℚ),
      dictGet w "completeness" = none →
      calculate_overall_score w sComp sDesc sCode sClf = none) := by
  refine ⟨by decide, ?_, ?_⟩
  · intro w sComp sDesc sCode sClf w1 w2 w3 w4 h1 h2 h3 h4
    unfold calculate_overall_score
    rw [h1, h2, h3, h4]
  · intro w sComp sDesc sCode sClf h1
    unfold calculate_overall_score
    rw [h1]

/-- Claim C7, witness: the shipped `WEIGHTS` mapping resolves all four
components and the aggregator produces the corresponding weighted result. -/
theorem claim_C7_witness :
    calculate_overall_score WEIGHTS 1 2 3 4 =
      some (mkOverall (3 / 10) (3 / 10) (1 / 5) (1 / 5) 1 2 3 4) :=
  claim_C7_amended.2.1 WEIGHTS 1 2 3 4 (3 / 10) (3 / 10) (1 / 5) (1 / 5) rfl rfl rfl rfl

/-- Claim C9, counterexample: on an empty dataset (zero rows, columns
present) the analysis does abort as a whole with no result — but the
failure is the untyped `ValueError` raised by `int(lengths.min())` (an
`int()` coercion of `NaN`) inside the description-quality analyzer, not a
typed `MissingColumnError`-class dataset-shape failure (no such error type
exists anywhere in the code; the completeness analyzer before it quietly
produces `NaN` percentages). -/
theorem claim_C9_counterexample :
    analyze_all dfEmpty "product_id" "description" ["code_1"] =
      .error .valueErrorNanToInt := rfl

/-- Claim C9 as amended: for every dataset with zero rows the whole
analysis aborts (no partial result structure is returned), but with the
untyped `ValueError` from the description-quality analyzer's NaN-to-int
coercion rather than a typed missing-column/dataset-shape error. -/
theorem claim_C9_amended (df : DataFrame) (product_id_col description_col : String)
    (code_cols : List String) (h : df.rows = []) :
    analyze_all df product_id_col description_col code_cols =
      .error .valueErrorNanToInt := by
  unfold analyze_all
  have hcol : df.col description_col = [] := by
    unfold DataFrame.col
    rw [h]
    rfl
  rw [hcol]
  rfl

/-- Claim C9, witness for the amended theorem: the concrete empty dataset
with no code columns configured behaves the same way. -/
theorem claim_C9_witness :
    analyze_all dfEmpty "product_id" "description" [] = .error .valueErrorNanToInt :=
  claim_C9_amended dfEmpty "product_id" "description" [] rfl

/-- Claim C8: on every successful run the overall score is the weighted sum
of the four component scores with weights 0.30 / 0.30 / 0.20 / 0.20 rounded
to two decimals; the quality level follows the half-open top-down bands
(≥90 excellent, ≥75 good, ≥60 fair, ≥40 poor, else critical); and the
critical-issue list is the concatenation, in fixed order, of the
below-80%-completeness columns, the optional too-short warning
(`too_short_pct > 10`), and the classifier-readiness issues, truncated to
at most 10 entries without reordering. -/
theorem claim_C8_aggregation :
    (∀ (df : DataFrame) (product_id_col description_col : String) (code_cols : List String)
        (r : AllResults),
      analyze_all df product_id_col description_col code_cols = .ok r →
      r.overall.overall_score =
        pyRoundR 2 ((r.completeness.overall_score : ℝ) * (3 / 10)
          + (r.description_quality.overall_score : ℝ) * (3 / 10)
          + r.code_distribution.overall_score * (1 / 5)
          + (r.classifier_readiness.overall_score : ℝ) * (1 / 5)))
    ∧ (∀ s : ℝ,
        (90 ≤ s → get_quality_level s = "excellent") ∧
        (75 ≤ s ∧ s < 90 → get_quality_level s = "good") ∧
        (60 ≤ s ∧ s < 75 → get_quality_level s = "fair") ∧
        (40 ≤ s ∧ s < 60 → get_quality_level s = "poor") ∧
        (s < 40 → get_quality_level s = "critical"))
    ∧ (∀ (comp : CompletenessResult) (dq : DescQualityResult) (cr : ReadinessResult),
        get_critical_issues comp dq cr =
          (((comp.column_completeness.filter (fun p => p.2.completeness_pct < 80)).map
              (fun p => Issue.lowCompleteness p.1 p.2.completeness_pct))
            ++ (if 10 < dq.too_short_pct then [Issue.tooShortDescriptions dq.too_short_pct]
                else [])
            ++ cr.data_quality_issues).take 10 ∧
          (get_critical_issues comp dq cr).length ≤ 10) := by
  refine ⟨?_, ?_, ?_⟩
  · intro df product_id_col description_col code_cols r h
    unfold analyze_all at h
    cases hdq : analyze_description_quality (df.col description_col) 20 with
    | error e =>
      rw [hdq] at h
      exact absurd h (by simp)
    | ok dq =>
      rw [hdq] at h
      dsimp only at h
      have hcalc : calculate_overall_score WEIGHTS
            (analyze_completeness df product_id_col description_col code_cols).overall_score
            dq.overall_score
            (analyze_code_distribution df code_cols (1 / 200)).overall_score
            (analyze_classifier_readiness df description_col code_cols 50).overall_score
          = some (mkOverall (3 / 10) (3 / 10) (1 / 5) (1 / 5)
              (analyze_completeness df product_id_col description_col code_cols).overall_score
              dq.overall_score
              (analyze_code_distribution df code_cols (1 / 200)).overall_score
              (analyze_classifier_readiness df description_col code_cols 50).overall_score) := rfl
      rw [hcalc] at h
      cases h
      simp only [mkOverall]
      push_cast
      ring_nf
  · intro s
    unfold get_quality_level
    refine ⟨?_, ?_, ?_, ?_, ?_⟩
    · intro h90
      rw [if_pos h90]
    · rintro ⟨h75, h90⟩
      rw [if_neg (by linarith), if_pos h75]
    · rintro ⟨h60, h75⟩
      rw [if_neg (by linarith), if_neg (by linarith), if_pos h60]
    · rintro ⟨h40, h60⟩
      rw [if_neg (by linarith), if_neg (by linarith), if_neg (by linarith), if_pos h40]
    · intro h40
      rw [if_neg (by linarith), if_neg (by linarith), if_neg (by linarith),
        if_neg (by linarith)]
  · intro comp dq cr
    refine ⟨rfl, ?_⟩
    unfold get_critical_issues
    simpa using List.length_take_le 10 _

/-- Claim C8, witness: a concrete successful run of the full pipeline, the
weighted-sum formula instantiated on it, and one band of the quality-level
mapping. -/
theorem claim_C8_witness :
    (∃ r, analyze_all dfW "product_id" "description" ["code_1"] = .ok r ∧
      r.overall.overall_score =
        pyRoundR 2 ((r.completeness.overall_score : ℝ) * (3 / 10)
          + (r.description_quality.overall_score : ℝ) * (3 / 10)
          + r.code_distribution.overall_score * (1 / 5)
          + (r.classifier_readiness.overall_score : ℝ) * (1 / 5))) ∧
    get_quality_level 95 = "excellent" := by
  constructor
  · obtain ⟨r, hr⟩ : ∃ r, analyze_all dfW "product_id" "description" ["code_1"] = .ok r :=
      ⟨_, rfl⟩
    exact ⟨r, hr, claim_C8_aggregation.1 dfW "product_id" "description" ["code_1"] r hr⟩
  · exact (claim_C8_aggregation.2.1 95).1 (by norm_num)

/-- The reported (4-decimal-rounded) entropy of a single-class distribution
is exactly 0: the raw value `-log2(1 + 1e-10)` is negative but of magnitude
below `2e-10`, which rounds to 0. -/
theorem entropy_single (n : ℕ) (hn : 0 < n) : pyRoundR 4 (calculate_entropy [n]) = 0 := by
  have hne : ((n : ℕ) : ℝ) ≠ 0 := Nat.cast_ne_zero.mpr (Nat.pos_iff_ne_zero.mp hn)
  have hH : calculate_entropy [n] = -(Real.log (1 + 1e-10) / Real.log 2) := by
    simp [calculate_entropy, Real.logb, div_self hne]
  have hl2 : (0.6931471803 : ℝ) < Real.log 2 := Real.log_two_gt_d9
  have hlog_hi : Real.log (1 + 1e-10) ≤ 1e-10 := by
    have h := Real.log_le_sub_one_of_pos (show (0 : ℝ) < 1 + 1e-10 by norm_num)
    linarith
  have hlog_lo : 0 ≤ Real.log (1 + 1e-10) := Real.log_nonneg (by norm_num)
  have hq_hi : Real.log (1 + 1e-10) / Real.log 2 ≤ 2e-10 := by
    rw [div_le_iff (by linarith)]
    nlinarith
  have hq_lo : 0 ≤ Real.log (1 + 1e-10) / Real.log 2 := div_nonneg hlog_lo (by linarith)
  rw [hH]
  unfold pyRoundR
  have hround : round (-(Real.log (1 + 1e-10) / Real.log 2) * 10 ^ 4) = 0 := by
    rw [round_eq, Int.floor_eq_zero_iff, Set.mem_Ico]
    constructor
    · nlinarith
    · nlinarith
  rw [hround]
  norm_num

/-- Bounds for `log(0.95 + 1e-10)` from three terms of the Maclaurin series
of `log(1-x)` at `x = 1/20 - 1e-10`. -/
theorem log_a_bounds :
    -(0.05129825 : ℝ) ≤ Real.log ((95 : ℝ) / 100 + 1e-10) ∧
      Real.log ((95 : ℝ) / 100 + 1e-10) ≤ -(0.05128508 : ℝ) := by
  have hx : |((1 : ℝ) / 20 - 1e-10)| < 1 := by
    rw [abs_of_pos (by norm_num)]
    norm_num
  have hser := Real.abs_log_sub_add_sum_range_le hx 3
  rw [show (1 : ℝ) - ((1 : ℝ) / 20 - 1e-10) = (95 : ℝ) / 100 + 1e-10 by norm_num] at hser
  rw [abs_of_pos (show (0 : ℝ) < (1 : ℝ) / 20 - 1e-10 by norm_num)] at hser
  set La := Real.log ((95 : ℝ) / 100 + 1e-10) with hLa
  rw [abs_le] at hser
  obtain ⟨h1, h2⟩ := hser
  norm_num [Finset.sum_range_succ] at h1 h2
  constructor <;> linarith

/-- Bounds for `-log(0.05 + 1e-10)`, decomposed as
`4·log 2 + log(5/4) - log(1 + 2e-9)`, with `log(5/4)` estimated by five
terms of the Maclaurin series of `log(1-x)` at `x = 1/5`. -/
theorem log_b_bounds :
    (2.99563937 : ℝ) ≤ -Real.log ((5 : ℝ) / 100 + 1e-10) ∧
      -Real.log ((5 : ℝ) / 100 + 1e-10) ≤ (2.99579940 : ℝ) := by
  have hsplit : Real.log ((5 : ℝ) / 100 + 1e-10)
      = -(4 * Real.log 2) - Real.log ((5 : ℝ) / 4) + Real.log (1 + 2e-9) := by
    rw [show (5 : ℝ) / 100 + 1e-10 = ((2 : ℝ) ^ 4 * ((5 : ℝ) / 4))⁻¹ * (1 + 2e-9) by norm_num]
    rw [Real.log_mul (by norm_num) (by norm_num), Real.log_inv,
      Real.log_mul (by norm_num) (by norm_num), Real.log_pow]
    push_cast
    ring
  have h54 : (0.22305066 : ℝ) ≤ Real.log ((5 : ℝ) / 4) ∧
      Real.log ((5 : ℝ) / 4) ≤ (0.22321067 : ℝ) := by
    have hx : |((1 : ℝ) / 5)| < 1 := by
      rw [abs_of_pos (by norm_num)]
      norm_num
    have hser := Real.abs_log_sub_add_sum_range_le hx 5
    rw [show (1 : ℝ) - (1 : ℝ) / 5 = ((5 : ℝ) / 4)⁻¹ by norm_num, Real.log_inv] at hser
    rw [abs_of_pos (show (0 : ℝ) < (1 : ℝ) / 5 by norm_num)] at hser
    set L54 := Real.log ((5 : ℝ) / 4) with hL54
    rw [abs_le] at hser
    obtain ⟨h1, h2⟩ := hser
    norm_num [Finset.sum_range_succ] at h1 h2
    constructor <;> linarith
  have hp_hi : Real.log (1 + 2e-9) ≤ 2e-9 := by
    have h := Real.log_le_sub_one_of_pos (show (0 : ℝ) < 1 + 2e-9 by norm_num)
    linarith
  have hp_lo : (0 : ℝ) ≤ Real.log (1 + 2e-9) := Real.log_nonneg (by norm_num)
  have hl2a : (0.6931471803 : ℝ) < Real.log 2 := Real.log_two_gt_d9
  have hl2b : Real.log 2 < (0.6931471808 : ℝ) := Real.log_two_lt_d9
  rw [hsplit]
  obtain ⟨h54a, h54b⟩ := h54
  constructor <;> linarith

/-- The reported entropy of the `{A: 95, B: 5}` distribution is exactly
`0.2864` bits: the raw value lies in `[0.28635, 0.28645)`. -/
theorem entropy_95_5 : pyRoundR 4 (calculate_entropy [95, 5]) = 2864 / 10000 := by
  have hl2a : (0.6931471803 : ℝ) < Real.log 2 := Real.log_two_gt_d9
  have hl2b : Real.log 2 < (0.6931471808 : ℝ) := Real.log_two_lt_d9
  have hl2pos : (0 : ℝ) < Real.log 2 := by linarith
  have hH : calculate_entropy [95, 5]
      = (-((95 : ℝ) / 100 * Real.log ((95 : ℝ) / 100 + 1e-10))
          - (5 : ℝ) / 100 * Real.log ((5 : ℝ) / 100 + 1e-10)) / Real.log 2 := by
    unfold calculate_entropy
    simp only [List.map_cons, List.map_nil, List.sum_cons, List.sum_nil, Real.logb]
    push_cast
    field_simp
    ring
  rw [hH]
  obtain ⟨ha_lo, ha_hi⟩ := log_a_bounds
  obtain ⟨hb_lo, hb_hi⟩ := log_b_bounds
  have hHlo : (0.28635 : ℝ)
      ≤ (-((95 : ℝ) / 100 * Real.log ((95 : ℝ) / 100 + 1e-10))
          - (5 : ℝ) / 100 * Real.log ((5 : ℝ) / 100 + 1e-10)) / Real.log 2 := by
    rw [le_div_iff hl2pos]
    linarith
  have hHhi : (-((95 : ℝ) / 100 * Real.log ((95 : ℝ) / 100 + 1e-10))
          - (5 : ℝ) / 100 * Real.log ((5 : ℝ) / 100 + 1e-10)) / Real.log 2
      < (0.28645 : ℝ) := by
    rw [div_lt_iff hl2pos]
    linarith
  unfold pyRoundR
  have hround : round ((-((95 : ℝ) / 100 * Real.log ((95 : ℝ) / 100 + 1e-10))
          - (5 : ℝ) / 100 * Real.log ((5 : ℝ) / 100 + 1e-10)) / Real.log 2 * 10 ^ 4)
      = 2864 := by
    rw [round_eq, Int.floor_eq_iff]
    constructor
    · push_cast
      linarith
    · push_cast
      linarith
  rw [hround]
  norm_num

/-- Claim C4: the reported distribution entropy is
`-Σ pᵢ·log2(pᵢ + 1e-10)` over the observed value probabilities (rounded to
four decimals), a value is rare iff its count is strictly below
`total_rows * rare_threshold`, a single-class column reports entropy
exactly 0, and the 100-row `{A: 95, B: 5}` column reports entropy `0.2864`
(≈ 0.286 bits), concentration `95.0`, and zero rare codes at the 0.5%
threshold. -/
theorem claim_C4_entropy :
    (∀ (cells : List (Option String)) (total_rows : ℕ) (rt : ℚ),
      (analyze_code_column cells total_rows rt).distribution_entropy =
        pyRoundR 4
          (-(((valueCounts (cells.filterMap id)).map
              (fun p =>
                (p.2 : ℝ)
                    / ((((valueCounts (cells.filterMap id)).map (fun q => q.2)).sum : ℕ) : ℝ)
                  * Real.logb 2
                    ((p.2 : ℝ)
                        / ((((valueCounts (cells.filterMap id)).map
                            (fun q => q.2)).sum : ℕ) : ℝ)
                      + 1e-10))).sum)))
    ∧ (∀ (cells : List (Option String)) (total_rows : ℕ) (rt : ℚ),
      (analyze_code_column cells total_rows rt).rare_codes_count =
        ((valueCounts (cells.filterMap id)).filter
          (fun p => (p.2 : ℚ) < (total_rows : ℚ) * rt)).length)
    ∧ (∀ (cells : List (Option String)) (total_rows : ℕ) (rt : ℚ) (v : String) (n : ℕ),
        0 < n → cells.filterMap id = List.replicate n v →
        (analyze_code_column cells total_rows rt).distribution_entropy = 0)
    ∧ ((analyze_code_column cellsC4 100 (1 / 200)).distribution_entropy = 2864 / 10000 ∧
       (analyze_code_column cellsC4 100 (1 / 200)).top_code_concentration = 95 ∧
       (analyze_code_column cellsC4 100 (1 / 200)).rare_codes_count = 0 ∧
       (analyze_code_column cellsC4 100 (1 / 200)).unique_codes = 2) := by
  refine ⟨?_, ?_, ?_, ?_, ?_, ?_, ?_⟩
  · intro cells total_rows rt
    rw [show (analyze_code_column cells total_rows rt).distribution_entropy
        = pyRoundR 4
            (calculate_entropy ((valueCounts (cells.filterMap id)).map (fun p => p.2)))
      from rfl]
    unfold calculate_entropy
    rw [List.map_map]
    rfl
  · intro cells total_rows rt
    rfl
  · intro cells total_rows rt v n hn hrep
    have hvc : valueCounts (cells.filterMap id) = [(v, n)] := by
      unfold valueCounts
      rw [hrep, countOccs_replicate n v hn]
      rfl
    unfold analyze_code_column
    dsimp only
    rw [hvc]
    exact entropy_single n hn
  · have hvc : valueCounts (cellsC4.filterMap id) = [("A", 95), ("B", 5)] := by
      set_option maxRecDepth 8000 in decide
    unfold analyze_code_column
    dsimp only
    rw [hvc]
    exact entropy_95_5
  · set_option maxRecDepth 8000 in decide
  · set_option maxRecDepth 8000 in decide
  · set_option maxRecDepth 8000 in decide

/-- Claim C4, witness: a two-row single-class column reports entropy
exactly 0. -/
theorem claim_C4_witness :
    (analyze_code_column [some "A", some "A"] 2 (1 / 200)).distribution_entropy = 0 :=
  claim_C4_entropy.2.2.1 [some "A", some "A"] 2 (1 / 200) "A" 2 (by decide) (by decide)
